import Mathlib

/-!
Verification of the NetworkPolicyPeer conversion pair in
pkg/apis/networking/v1/conversion.go.

The Go data model uses pointer fields: the external (v1) peer holds a
deprecated singular field IPBlock of type pointer-to-IPBlock and a plural
field IPBlocks, a slice of pointers; the internal (networking) peer holds
only IPBlocks.  Pointer identity matters: the source guards the overwrite
with the pointer comparison in.IPBlock != in.IPBlocks[0], and dereferences
in.IPBlock.CIDR and out.IPBlock.CIDR without nil checks, so a nil pointer
there is a runtime panic.  We model a Go pointer as either null or a
reference carrying its allocation address together with the pointed-to
value, and we model each conversion as a three-valued outcome: a normal
return, a returned error (propagated from the baseline copy), or a
nil-pointer panic.
-/

/-- An address-range expression; the single field is an opaque CIDR string. -/
structure IPBlock where
  CIDR : String
deriving DecidableEq, Repr

/-- A Go pointer to an IPBlock: nil, or a reference to an allocation,
carrying the allocation address (its identity) and the pointed-to value. -/
inductive IPBlockPtr where
  | null : IPBlockPtr
  | ref (addr : Nat) (block : IPBlock) : IPBlockPtr
deriving DecidableEq, Repr

namespace IPBlockPtr

/-- Go pointer equality: two pointers are equal iff both are nil or both
point to the same allocation (same address). -/
def ptrEq : IPBlockPtr → IPBlockPtr → Bool
  | .null, .null => true
  | .ref a _, .ref b _ => a == b
  | _, _ => false

/-- The allocation address of a pointer, 0 for nil. -/
def addr : IPBlockPtr → Nat
  | .null => 0
  | .ref a _ => a

/-- The CIDR string behind a pointer, when the pointer is not nil. -/
def cidr? : IPBlockPtr → Option String
  | .null => none
  | .ref _ b => some b.CIDR

end IPBlockPtr

/-- External (v1) peer: deprecated singular pointer field IPBlock plus the
plural field IPBlocks, a slice of pointers. -/
structure V1NetworkPolicyPeer where
  IPBlock : IPBlockPtr
  IPBlocks : List IPBlockPtr
deriving DecidableEq, Repr

/-- Internal (networking) peer: only the plural field IPBlocks; the
singular field does not exist in this version. -/
structure NetworkingNetworkPolicyPeer where
  IPBlocks : List IPBlockPtr
deriving DecidableEq, Repr

/-- Outcome of a Go conversion call: a normal return with the out value, a
returned error, or a runtime panic from a nil-pointer dereference. -/
inductive ConvOutcome (α : Type) where
  | ok (out : α) : ConvOutcome α
  | err (e : String) : ConvOutcome α
  | nilPanic : ConvOutcome α
deriving DecidableEq, Repr

/-- Address guaranteed distinct from every allocation reachable from the
input, used for the fresh block allocated by the overwrite branches. -/
def freshAddrV1 (inp : V1NetworkPolicyPeer) : Nat :=
  (inp.IPBlock.addr :: inp.IPBlocks.map IPBlockPtr.addr).foldr max 0 + 1

/-- Modelled from the spec: the generated baseline structural copy
autoConvert_v1_NetworkPolicyPeer_To_networking_NetworkPolicyPeer is not
among the given sources; per spec section 4.1 step 1 it copies the blocks
list field-by-field, every CIDR value verbatim and in original order, so
the internal list starts as the input list unchanged. -/
def autoConvert_v1_NetworkPolicyPeer_To_networking_NetworkPolicyPeer
    (inp : V1NetworkPolicyPeer) : ConvOutcome NetworkingNetworkPolicyPeer :=
  .ok ⟨inp.IPBlocks⟩

/-- Modelled from the spec: the generated baseline structural copy
autoConvert_networking_NetworkPolicyPeer_To_v1_NetworkPolicyPeer is not
among the given sources; per spec section 4.1 step 1 it copies the blocks
list verbatim into out.IPBlocks, and since the singular field does not
exist in the internal version it leaves out.IPBlock at its zero value
(nil). -/
def autoConvert_networking_NetworkPolicyPeer_To_v1_NetworkPolicyPeer
    (inp : NetworkingNetworkPolicyPeer) : ConvOutcome V1NetworkPolicyPeer :=
  .ok ⟨.null, inp.IPBlocks⟩

/-- The overlay of Convert_v1_NetworkPolicyPeer_To_networking_NetworkPolicyPeer
(conversion.go lines 30-46), applied after the baseline copy succeeded.
Both if conditions evaluate in.IPBlock.CIDR, so a nil in.IPBlock panics.
The first if compares the pointers in.IPBlock and in.IPBlocks[0]; when the
CIDR is non-empty, the list non-empty and the pointers differ, it
overwrites out.IPBlocks with a single freshly allocated block holding the
CIDR of in.IPBlock.  The second if does the same overwrite when the CIDR
is non-empty and the input list is empty. -/
def v1ToNetworkingOverlay (inp : V1NetworkPolicyPeer)
    (out0 : NetworkingNetworkPolicyPeer) : ConvOutcome NetworkingNetworkPolicyPeer :=
  match inp.IPBlock with
  | .null => .nilPanic
  | .ref _ b =>
    let out1 : NetworkingNetworkPolicyPeer :=
      match inp.IPBlocks with
      | [] => out0
      | p0 :: _ =>
        if 0 < b.CIDR.length ∧ inp.IPBlock.ptrEq p0 = false then
          ⟨[.ref (freshAddrV1 inp) ⟨b.CIDR⟩]⟩
        else out0
    let out2 : NetworkingNetworkPolicyPeer :=
      if 0 < b.CIDR.length ∧ inp.IPBlocks.length = 0 then
        ⟨[.ref (freshAddrV1 inp) ⟨b.CIDR⟩]⟩
      else out1
    .ok out2

/-- Convert_v1_NetworkPolicyPeer_To_networking_NetworkPolicyPeer as a
function of the outcome of the baseline copy (conversion.go lines 25-47):
if the baseline copy failed, its failure is returned unchanged and the
overlay is not applied; otherwise the overlay runs on the copied value. -/
def Convert_v1_NetworkPolicyPeer_To_networking_NetworkPolicyPeer_withAuto
    (auto : ConvOutcome NetworkingNetworkPolicyPeer)
    (inp : V1NetworkPolicyPeer) : ConvOutcome NetworkingNetworkPolicyPeer :=
  match auto with
  | .ok out0 => v1ToNetworkingOverlay inp out0
  | .err e => .err e
  | .nilPanic => .nilPanic

/-- Convert_v1_NetworkPolicyPeer_To_networking_NetworkPolicyPeer
(conversion.go lines 25-47): baseline copy, then the corrective overlay. -/
def Convert_v1_NetworkPolicyPeer_To_networking_NetworkPolicyPeer
    (inp : V1NetworkPolicyPeer) : ConvOutcome NetworkingNetworkPolicyPeer :=
  Convert_v1_NetworkPolicyPeer_To_networking_NetworkPolicyPeer_withAuto
    (autoConvert_v1_NetworkPolicyPeer_To_networking_NetworkPolicyPeer inp) inp

/-- The overlay of Convert_networking_NetworkPolicyPeer_To_v1_NetworkPolicyPeer
(conversion.go lines 56-58): when in.IPBlocks is non-empty it executes
out.IPBlock.CIDR = in.IPBlocks[0].CIDR, which dereferences both
out.IPBlock and in.IPBlocks[0]; either being nil is a panic. -/
def networkingToV1Overlay (inp : NetworkingNetworkPolicyPeer)
    (out0 : V1NetworkPolicyPeer) : ConvOutcome V1NetworkPolicyPeer :=
  match inp.IPBlocks with
  | [] => .ok out0
  | p0 :: _ =>
    match out0.IPBlock, p0 with
    | .ref a _, .ref _ pb => .ok ⟨.ref a ⟨pb.CIDR⟩, out0.IPBlocks⟩
    | _, _ => .nilPanic

/-- Convert_networking_NetworkPolicyPeer_To_v1_NetworkPolicyPeer as a
function of the outcome of the baseline copy (conversion.go lines 49-60):
a baseline failure is returned unchanged and the overlay is skipped. -/
def Convert_networking_NetworkPolicyPeer_To_v1_NetworkPolicyPeer_withAuto
    (auto : ConvOutcome V1NetworkPolicyPeer)
    (inp : NetworkingNetworkPolicyPeer) : ConvOutcome V1NetworkPolicyPeer :=
  match auto with
  | .ok out0 => networkingToV1Overlay inp out0
  | .err e => .err e
  | .nilPanic => .nilPanic

/-- Convert_networking_NetworkPolicyPeer_To_v1_NetworkPolicyPeer
(conversion.go lines 49-60): baseline copy, then the overlay that writes
the first canonical block through out.IPBlock. -/
def Convert_networking_NetworkPolicyPeer_To_v1_NetworkPolicyPeer
    (inp : NetworkingNetworkPolicyPeer) : ConvOutcome V1NetworkPolicyPeer :=
  Convert_networking_NetworkPolicyPeer_To_v1_NetworkPolicyPeer_withAuto
    (autoConvert_networking_NetworkPolicyPeer_To_v1_NetworkPolicyPeer inp) inp

/-- The internal-to-external-to-internal round trip: convert the internal
peer to v1 and, when that returns normally, convert the result back. -/
def internalRoundTrip (inp : NetworkingNetworkPolicyPeer) :
    ConvOutcome NetworkingNetworkPolicyPeer :=
  match Convert_networking_NetworkPolicyPeer_To_v1_NetworkPolicyPeer inp with
  | .ok ext => Convert_v1_NetworkPolicyPeer_To_networking_NetworkPolicyPeer ext
  | .err e => .err e
  | .nilPanic => .nilPanic

/-! ## Claim theorems -/

/-- C1: for every external input whose singular IPBlock has a non-empty
CIDR, whose IPBlocks list is non-empty, and whose IPBlock is not the same
element (pointer) as IPBlocks[0], the external-to-internal conversion
returns exactly a single-element list holding the CIDR of IPBlock,
discarding every element of the original list. -/
theorem c1_mismatched_primary_truncates
    (inp : V1NetworkPolicyPeer) (a : Nat) (b : IPBlock)
    (hp : inp.IPBlock = .ref a b) (hc : 0 < b.CIDR.length)
    (p0 : IPBlockPtr) (rest : List IPBlockPtr)
    (hl : inp.IPBlocks = p0 :: rest)
    (hne : inp.IPBlock.ptrEq p0 = false) :
    Convert_v1_NetworkPolicyPeer_To_networking_NetworkPolicyPeer inp =
      .ok ⟨[.ref (freshAddrV1 inp) ⟨b.CIDR⟩]⟩ := by
  rw [hp] at hne
  simp only [Convert_v1_NetworkPolicyPeer_To_networking_NetworkPolicyPeer,
    Convert_v1_NetworkPolicyPeer_To_networking_NetworkPolicyPeer_withAuto,
    autoConvert_v1_NetworkPolicyPeer_To_networking_NetworkPolicyPeer,
    v1ToNetworkingOverlay, hp, hl]
  simp [hc, hne]

/-- C1 witness: instantiation at the mismatched test vector of the repo. -/
theorem c1_witness :
    ((⟨.ref 1 ⟨"1.1.2.1"⟩, [.ref 2 ⟨"1.1.1.1"⟩, .ref 3 ⟨"2.2.2.2"⟩]⟩ :
        V1NetworkPolicyPeer).IPBlock = .ref 1 ⟨"1.1.2.1"⟩) ∧
    Convert_v1_NetworkPolicyPeer_To_networking_NetworkPolicyPeer
        ⟨.ref 1 ⟨"1.1.2.1"⟩, [.ref 2 ⟨"1.1.1.1"⟩, .ref 3 ⟨"2.2.2.2"⟩]⟩ =
      .ok ⟨[.ref (freshAddrV1 ⟨.ref 1 ⟨"1.1.2.1"⟩,
              [.ref 2 ⟨"1.1.1.1"⟩, .ref 3 ⟨"2.2.2.2"⟩]⟩) ⟨"1.1.2.1"⟩]⟩ :=
  ⟨rfl, c1_mismatched_primary_truncates
    ⟨.ref 1 ⟨"1.1.2.1"⟩, [.ref 2 ⟨"1.1.1.1"⟩, .ref 3 ⟨"2.2.2.2"⟩]⟩
    1 ⟨"1.1.2.1"⟩ rfl (by decide)
    (.ref 2 ⟨"1.1.1.1"⟩) [.ref 3 ⟨"2.2.2.2"⟩] rfl (by decide)⟩

/-- C2 evaluation: the claim reads equality of the singular field and
IPBlocks[0] as equality of their CIDR values, but the source compares the
two pointers; on the repo test vector where both hold the CIDR 1.1.1.1 in
distinct allocations, the conversion truncates the list to a single
element instead of returning the list unchanged. -/
theorem c2_matching_value_still_truncates :
    Convert_v1_NetworkPolicyPeer_To_networking_NetworkPolicyPeer
        ⟨.ref 1 ⟨"1.1.1.1"⟩, [.ref 2 ⟨"1.1.1.1"⟩, .ref 3 ⟨"2.2.2.2"⟩]⟩ =
      .ok ⟨[.ref 4 ⟨"1.1.1.1"⟩]⟩ ∧
    ¬ (Convert_v1_NetworkPolicyPeer_To_networking_NetworkPolicyPeer
        ⟨.ref 1 ⟨"1.1.1.1"⟩, [.ref 2 ⟨"1.1.1.1"⟩, .ref 3 ⟨"2.2.2.2"⟩]⟩ =
      .ok ⟨[.ref 2 ⟨"1.1.1.1"⟩, .ref 3 ⟨"2.2.2.2"⟩]⟩) := by decide

/-- C3 evaluation: both conversions reach a nil-pointer dereference on
structurally valid inputs from the repo tests: the v1 input with an
absent (nil) singular IPBlock, and the internal input with a non-empty
list (the out.IPBlock written through is still nil). -/
theorem c3_nil_pointer_panics :
    Convert_v1_NetworkPolicyPeer_To_networking_NetworkPolicyPeer
        ⟨.null, [.ref 1 ⟨"1.1.1.1"⟩, .ref 2 ⟨"2.2.2.2"⟩]⟩ = .nilPanic ∧
    Convert_networking_NetworkPolicyPeer_To_v1_NetworkPolicyPeer
        ⟨[.ref 3 ⟨"192.168.1.0/24"⟩, .ref 4 ⟨"192.168.2.0/24"⟩]⟩ = .nilPanic :=
  ⟨rfl, rfl⟩

/-- C4 evaluation: the internal-to-external-to-internal round trip never
returns a list: with a non-empty list the first leg panics writing through
the nil out.IPBlock, and with the empty list the second leg panics
dereferencing the nil singular field of the intermediate value. -/
theorem c4_round_trip_panics :
    internalRoundTrip ⟨[]⟩ = .nilPanic ∧
    internalRoundTrip ⟨[.ref 1 ⟨"1.1.1.1"⟩, .ref 2 ⟨"2.2.2.2"⟩]⟩ = .nilPanic :=
  ⟨rfl, rfl⟩

/-- C5 evaluation: on the repo test input, an internal peer with one
block, the internal-to-external conversion panics writing
out.IPBlock.CIDR through the nil out.IPBlock instead of returning the
singular field set to blocks[0]. -/
theorem c5_internal_to_external_panics :
    Convert_networking_NetworkPolicyPeer_To_v1_NetworkPolicyPeer
        ⟨[.ref 1 ⟨"192.168.1.0/24"⟩]⟩ = .nilPanic := rfl

/-- C6: in both conversions, when the baseline structural copy fails, the
failure is returned unchanged and the corrective overlay is not applied. -/
theorem c6_auto_error_propagates (e : String)
    (inp1 : V1NetworkPolicyPeer) (inp2 : NetworkingNetworkPolicyPeer) :
    Convert_v1_NetworkPolicyPeer_To_networking_NetworkPolicyPeer_withAuto
        (.err e) inp1 = .err e ∧
    Convert_networking_NetworkPolicyPeer_To_v1_NetworkPolicyPeer_withAuto
        (.err e) inp2 = .err e :=
  ⟨rfl, rfl⟩

/-- C7: for every external input whose singular IPBlock has a non-empty
CIDR and whose IPBlocks list is empty, the external-to-internal conversion
returns a single-element list holding the CIDR of IPBlock. -/
theorem c7_primary_only_becomes_singleton
    (inp : V1NetworkPolicyPeer) (a : Nat) (b : IPBlock)
    (hp : inp.IPBlock = .ref a b) (hc : 0 < b.CIDR.length)
    (hl : inp.IPBlocks = []) :
    Convert_v1_NetworkPolicyPeer_To_networking_NetworkPolicyPeer inp =
      .ok ⟨[.ref (freshAddrV1 inp) ⟨b.CIDR⟩]⟩ := by
  simp only [Convert_v1_NetworkPolicyPeer_To_networking_NetworkPolicyPeer,
    Convert_v1_NetworkPolicyPeer_To_networking_NetworkPolicyPeer_withAuto,
    autoConvert_v1_NetworkPolicyPeer_To_networking_NetworkPolicyPeer,
    v1ToNetworkingOverlay, hp, hl]
  simp [hc]

/-- C7 witness: instantiation at the primary-only test vector. -/
theorem c7_witness :
    ((⟨.ref 1 ⟨"1.1.1.1"⟩, []⟩ : V1NetworkPolicyPeer).IPBlocks = []) ∧
    Convert_v1_NetworkPolicyPeer_To_networking_NetworkPolicyPeer
        ⟨.ref 1 ⟨"1.1.1.1"⟩, []⟩ =
      .ok ⟨[.ref (freshAddrV1 ⟨.ref 1 ⟨"1.1.1.1"⟩, []⟩) ⟨"1.1.1.1"⟩]⟩ :=
  ⟨rfl, c7_primary_only_becomes_singleton ⟨.ref 1 ⟨"1.1.1.1"⟩, []⟩
    1 ⟨"1.1.1.1"⟩ rfl (by decide) rfl⟩

/-- C8: for every internal input with an empty blocks list, the
internal-to-external conversion returns the external peer whose singular
field is still the zero value (nil) and whose list is empty. -/
theorem c8_empty_internal_to_external
    (inp : NetworkingNetworkPolicyPeer) (h : inp.IPBlocks = []) :
    Convert_networking_NetworkPolicyPeer_To_v1_NetworkPolicyPeer inp =
      .ok ⟨.null, []⟩ := by
  simp only [Convert_networking_NetworkPolicyPeer_To_v1_NetworkPolicyPeer,
    Convert_networking_NetworkPolicyPeer_To_v1_NetworkPolicyPeer_withAuto,
    autoConvert_networking_NetworkPolicyPeer_To_v1_NetworkPolicyPeer,
    networkingToV1Overlay, h]

/-- C8 witness: instantiation at the empty internal peer. -/
theorem c8_witness :
    ((⟨[]⟩ : NetworkingNetworkPolicyPeer).IPBlocks = []) ∧
    Convert_networking_NetworkPolicyPeer_To_v1_NetworkPolicyPeer ⟨[]⟩ =
      .ok ⟨.null, []⟩ :=
  ⟨rfl, c8_empty_internal_to_external ⟨[]⟩ rfl⟩


/-- C9: whenever the external-to-internal conversion returns normally,
every pointer in the output list is either an element of the input list or
carries the CIDR value of the singular input field (no data is
fabricated), and the output list is either the verbatim input list with
its original order kept, or a single element sourced from the singular
field. -/
theorem c9_no_fabrication
    (inp : V1NetworkPolicyPeer) (out : NetworkingNetworkPolicyPeer)
    (h : Convert_v1_NetworkPolicyPeer_To_networking_NetworkPolicyPeer inp = .ok out) :
    (∀ p ∈ out.IPBlocks, p ∈ inp.IPBlocks ∨ p.cidr? = inp.IPBlock.cidr?) ∧
    (out.IPBlocks = inp.IPBlocks ∨
      ∃ c, out.IPBlocks.map IPBlockPtr.cidr? = [some c] ∧
        inp.IPBlock.cidr? = some c) := by
  obtain ⟨pb, bl⟩ := inp
  cases pb with
  | null =>
    exact absurd h (by simp [Convert_v1_NetworkPolicyPeer_To_networking_NetworkPolicyPeer,
      Convert_v1_NetworkPolicyPeer_To_networking_NetworkPolicyPeer_withAuto,
      autoConvert_v1_NetworkPolicyPeer_To_networking_NetworkPolicyPeer,
      v1ToNetworkingOverlay])
  | ref a b =>
    cases bl with
    | nil =>
      simp only [Convert_v1_NetworkPolicyPeer_To_networking_NetworkPolicyPeer,
        Convert_v1_NetworkPolicyPeer_To_networking_NetworkPolicyPeer_withAuto,
        autoConvert_v1_NetworkPolicyPeer_To_networking_NetworkPolicyPeer,
        v1ToNetworkingOverlay, List.length_nil, and_true,
        ConvOutcome.ok.injEq] at h
      rcases Nat.eq_zero_or_pos b.CIDR.length with hc | hc
      · rw [if_neg (by omega)] at h
        subst h
        exact ⟨by simp, Or.inl rfl⟩
      · rw [if_pos hc] at h
        subst h
        refine ⟨?_, Or.inr ⟨b.CIDR, by simp [IPBlockPtr.cidr?], by simp [IPBlockPtr.cidr?]⟩⟩
        intro p hp
        simp only [List.mem_singleton] at hp
        subst hp
        exact Or.inr (by simp [IPBlockPtr.cidr?])
    | cons p0 rest =>
      simp only [Convert_v1_NetworkPolicyPeer_To_networking_NetworkPolicyPeer,
        Convert_v1_NetworkPolicyPeer_To_networking_NetworkPolicyPeer_withAuto,
        autoConvert_v1_NetworkPolicyPeer_To_networking_NetworkPolicyPeer,
        v1ToNetworkingOverlay, List.length_cons, Nat.succ_ne_zero, and_false,
        if_false, ConvOutcome.ok.injEq] at h
      by_cases hcd : 0 < b.CIDR.length ∧ (IPBlockPtr.ref a b).ptrEq p0 = false
      · rw [if_pos hcd] at h
        subst h
        refine ⟨?_, Or.inr ⟨b.CIDR, by simp [IPBlockPtr.cidr?], by simp [IPBlockPtr.cidr?]⟩⟩
        intro p hp
        simp only [List.mem_singleton] at hp
        subst hp
        exact Or.inr (by simp [IPBlockPtr.cidr?])
      · rw [if_neg hcd] at h
        subst h
        exact ⟨fun p hp => Or.inl hp, Or.inl rfl⟩

/-- C9 witness: instantiation at a primary-only input whose output is the
single fresh block holding the same CIDR. -/
theorem c9_witness :
    (Convert_v1_NetworkPolicyPeer_To_networking_NetworkPolicyPeer
        ⟨.ref 1 ⟨"9.9.9.9"⟩, []⟩ = .ok ⟨[.ref 2 ⟨"9.9.9.9"⟩]⟩) ∧
    ((∀ p ∈ (⟨[.ref 2 ⟨"9.9.9.9"⟩]⟩ : NetworkingNetworkPolicyPeer).IPBlocks,
        p ∈ (⟨.ref 1 ⟨"9.9.9.9"⟩, []⟩ : V1NetworkPolicyPeer).IPBlocks ∨
          p.cidr? = (⟨.ref 1 ⟨"9.9.9.9"⟩, []⟩ : V1NetworkPolicyPeer).IPBlock.cidr?) ∧
      ((⟨[.ref 2 ⟨"9.9.9.9"⟩]⟩ : NetworkingNetworkPolicyPeer).IPBlocks =
          (⟨.ref 1 ⟨"9.9.9.9"⟩, []⟩ : V1NetworkPolicyPeer).IPBlocks ∨
        ∃ c, (⟨[.ref 2 ⟨"9.9.9.9"⟩]⟩ : NetworkingNetworkPolicyPeer).IPBlocks.map
            IPBlockPtr.cidr? = [some c] ∧
          (⟨.ref 1 ⟨"9.9.9.9"⟩, []⟩ : V1NetworkPolicyPeer).IPBlock.cidr? = some c)) :=
  ⟨by decide, c9_no_fabrication ⟨.ref 1 ⟨"9.9.9.9"⟩, []⟩ ⟨[.ref 2 ⟨"9.9.9.9"⟩]⟩ (by decide)⟩

/-- C10 evaluation: the claim says that with an empty singular CIDR value
the result is always the verbatim copy of the input list regardless of
whether the singular field is present; but when the singular field is
absent (nil) the conversion dereferences it and panics instead of
returning the copy. -/
theorem c10_nil_primary_not_verbatim_copy :
    Convert_v1_NetworkPolicyPeer_To_networking_NetworkPolicyPeer
        ⟨.null, [.ref 7 ⟨"3.3.3.3"⟩]⟩ = .nilPanic ∧
    ¬ (Convert_v1_NetworkPolicyPeer_To_networking_NetworkPolicyPeer
        ⟨.null, [.ref 7 ⟨"3.3.3.3"⟩]⟩ = .ok ⟨[.ref 7 ⟨"3.3.3.3"⟩]⟩) := by decide
